import Mathlib

/-!
Verification development for the Vigil responder routes
(`src/responder/routes.rs`): the report-submission route
(`reporter_report`), the flush route (`reporter_flush`) and the admin
toggle routes (`disable_service`, `enable_service`), together with the
report-handling core they call into (`handle_load`, `handle_health`,
`handle_flush` from `crate::prober::report`, modelled from the spec
since their source is not part of this fragment).

The global lock-guarded `PROBER_STORE` is embedded by explicit state
passing: every operation takes the store and returns the (possibly
mutated) store alongside its result.
-/

namespace Vigil

/-- Declared reporting mode of a node: `push` nodes submit load reports,
`local` nodes submit health reports. -/
inductive Mode
  | Push
  | Local
deriving DecidableEq, Repr

/-- One reporting endpoint of a probe, with its fixed mode. -/
structure Node where
  id : String
  mode : Mode
deriving DecidableEq, Repr

/-- A monitored probe: an ordered list of nodes. The probe identifier is
the key under which it is stored in `States.probes`. -/
structure Probe where
  nodes : List Node
deriving DecidableEq, Repr

/-- Key of a replica state entry: (probe id, node id, replica id). -/
abbrev ReplicaKey := String × String × String

/-- Last reported state of one replica: interval, last load (cpu, ram)
or health payload, and the flush generation counter. -/
structure ReplicaState where
  interval : Nat
  load : Option (Rat × Rat)
  health : Option String
  generation : Nat
deriving DecidableEq, Repr

/-- The read-facing aggregate of the store: registered probes keyed by
probe id (`states.probes` in the source) and the per-replica report
states. -/
structure States where
  probes : List (String × Probe)
  replicas : List (ReplicaKey × ReplicaState)
deriving DecidableEq, Repr

/-- The prober store (`PROBER_STORE`): the states aggregate plus the set
of administratively disabled service names (`disabled_services`, a
`HashSet<String>` in the source). -/
structure Store where
  states : States
  disabledServices : Finset String
deriving DecidableEq

/-- Load variant of an inbound report payload: cpu and ram values. -/
structure LoadBody where
  cpu : Rat
  ram : Rat
deriving DecidableEq, Repr

/-- Health variant of an inbound report payload (opaque payload). -/
structure HealthBody where
  payload : String
deriving DecidableEq, Repr

/-- Inbound reporter payload (`ReporterPayload`): replica id, interval,
and the two optional variants `load` and `health`. -/
structure ReporterPayload where
  replica : String
  interval : Nat
  load : Option LoadBody
  health : Option HealthBody
deriving DecidableEq, Repr

/-- Forward value computed from an accepted load report and handed to
plugin dispatch: the normalized load metrics. -/
structure Forward where
  cpu : Rat
  ram : Rat
deriving DecidableEq, Repr

/-- Errors of the load-report handler (`HandleLoadError`). -/
inductive HandleLoadError
  | InvalidLoad
  | WrongMode
  | NotFound
deriving DecidableEq, Repr

/-- Errors of the health-report handler (`HandleHealthError`). -/
inductive HandleHealthError
  | WrongMode
  | NotFound
deriving DecidableEq, Repr

/-- Errors of the flush handler (`HandleFlushError`). -/
inductive HandleFlushError
  | WrongMode
  | NotFound
deriving DecidableEq, Repr

/-- HTTP responses produced by the reporter routes. -/
inductive Response
  | Ok
  | BadRequest
  | PreconditionFailed
  | NotFound
deriving DecidableEq, Repr

/-- Numeric HTTP status code of each response. -/
def Response.code : Response → Nat
  | .Ok => 200
  | .BadRequest => 400
  | .PreconditionFailed => 412
  | .NotFound => 404

/-- One recorded call to `run_dispatch_plugins`: the probe id, node id
and forward value passed to it. -/
structure Dispatch where
  probe_id : String
  node_id : String
  forward : Forward
deriving DecidableEq, Repr

/-- Result of one `reporter_report` invocation: the store after the
call, the HTTP response, and the list of `run_dispatch_plugins` calls
made (in order). -/
structure ReportResult where
  store : Store
  response : Response
  dispatches : List Dispatch
deriving DecidableEq

/-- Response of the admin toggle routes. Both routes return a `String`
in the source; since the success arm's text is the `Debug` rendering of
a `HashSet` (whose iteration order is unspecified), the response is
modelled structurally: the set that would be printed, or the content of
the respective error message. -/
inductive ToggleResponse
  | debugSet (services : Finset String)
  | couldNotFind (name : String)
  | couldNotFindDisabled (name : String)
deriving DecidableEq

/-- Modelled from the spec: probe lookup of the Probe Registry, step 1
of the classifier algorithm. The registry source is not part of this
fragment. -/
def findProbe (states : States) (probe_id : String) : Option Probe :=
  (states.probes.find? (fun kv => kv.1 == probe_id)).map (fun kv => kv.2)

/-- Modelled from the spec: the registry lookup
`find_node(probe_id, node_id)` of the external-interface section,
steps 1 and 2 of the classifier algorithm; absent probe or node yields
`none`. -/
def findNode (states : States) (probe_id node_id : String) : Option Node :=
  (findProbe states probe_id).bind (fun probe => probe.nodes.find? (fun nd => nd.id == node_id))

/-- Last stored state of a replica, if any. -/
def getReplica (states : States) (key : ReplicaKey) : Option ReplicaState :=
  (states.replicas.find? (fun kv => kv.1 == key)).map (fun kv => kv.2)

/-- Insert or overwrite one replica state entry. -/
def setReplica (replicas : List (ReplicaKey × ReplicaState)) (key : ReplicaKey)
    (st : ReplicaState) : List (ReplicaKey × ReplicaState) :=
  if replicas.any (fun kv => kv.1 == key) then
    replicas.map (fun kv => if kv.1 == key then (key, st) else kv)
  else
    replicas ++ [(key, st)]

/-- Modelled from the spec: `handle_load` of `crate::prober::report`
(not under this source fragment). Steps: look up probe and node
(absent either way is `NotFound`); a load report requires mode `Push`
(`Local` is `WrongMode`); out-of-range cpu or ram is `InvalidLoad`;
otherwise write cpu, ram and interval into the replica state
(preserving its flush generation) and return the forward value. Errors
leave the store untouched. -/
def handle_load (store : Store) (probe_id node_id replica_id : String) (interval : Nat)
    (cpu ram : Rat) : Store × Except HandleLoadError Forward :=
  match findNode store.states probe_id node_id with
  | none => (store, Except.error HandleLoadError.NotFound)
  | some node =>
    match node.mode with
    | Mode.Local => (store, Except.error HandleLoadError.WrongMode)
    | Mode.Push =>
      if cpu < 0 ∨ 1 < cpu ∨ ram < 0 ∨ 1 < ram then
        (store, Except.error HandleLoadError.InvalidLoad)
      else
        let key : ReplicaKey := (probe_id, node_id, replica_id)
        let gen := ((getReplica store.states key).map (fun rs => rs.generation)).getD 0
        let st : ReplicaState :=
          { interval := interval, load := some (cpu, ram), health := none, generation := gen }
        ({ store with
            states := { store.states with replicas := setReplica store.states.replicas key st } },
          Except.ok { cpu := cpu, ram := ram })

/-- Modelled from the spec: `handle_health` of `crate::prober::report`
(not under this source fragment). Steps: look up probe and node
(`NotFound` if absent); a health report requires mode `Local` (`Push`
is `WrongMode`); otherwise write the health payload and interval into
the replica state (preserving its flush generation). Errors leave the
store untouched. -/
def handle_health (store : Store) (probe_id node_id replica_id : String) (interval : Nat)
    (health : HealthBody) : Store × Except HandleHealthError Unit :=
  match findNode store.states probe_id node_id with
  | none => (store, Except.error HandleHealthError.NotFound)
  | some node =>
    match node.mode with
    | Mode.Push => (store, Except.error HandleHealthError.WrongMode)
    | Mode.Local =>
      let key : ReplicaKey := (probe_id, node_id, replica_id)
      let gen := ((getReplica store.states key).map (fun rs => rs.generation)).getD 0
      let st : ReplicaState :=
        { interval := interval, load := none, health := some health.payload, generation := gen }
      ({ store with
          states := { store.states with replicas := setReplica store.states.replicas key st } },
        Except.ok ())

/-- Modelled from the spec: `handle_flush` of `crate::prober::report`
(not under this source fragment). Validates probe, node and replica
existence (`NotFound` if any is missing); on success clears the
replica's last report data and increments its flush generation counter.
Flush has no mode restriction, so `WrongMode` is never produced. -/
def handle_flush (store : Store) (probe_id node_id replica_id : String) :
    Store × Except HandleFlushError Unit :=
  match findNode store.states probe_id node_id with
  | none => (store, Except.error HandleFlushError.NotFound)
  | some _ =>
    let key : ReplicaKey := (probe_id, node_id, replica_id)
    match getReplica store.states key with
    | none => (store, Except.error HandleFlushError.NotFound)
    | some rs =>
      let st : ReplicaState :=
        { interval := rs.interval, load := none, health := none,
          generation := rs.generation + 1 }
      ({ store with
          states := { store.states with replicas := setReplica store.states.replicas key st } },
        Except.ok ())

/-- The `found_it` loop of `disable_service`: iterate over
`states.probes` and set the flag when a key equals the service name. -/
def foundProbe (probes : List (String × Probe)) (service_name : String) : Bool :=
  probes.foldl (fun found_it kv => if kv.1 == service_name then true else found_it) false

/-- Admin route `disable_service` (routes.rs lines 89-107): if no
registered probe id equals the service name, answer with the
could-not-find-service message and leave the store untouched; otherwise
insert the name into `disabled_services` and answer with the set's
debug rendering. -/
def disable_service (store : Store) (service_name : String) : Store × ToggleResponse :=
  let found_it := foundProbe store.states.probes service_name
  if found_it = false then
    (store, ToggleResponse.couldNotFind service_name)
  else
    let disabled_services := insert service_name store.disabledServices
    ({ store with disabledServices := disabled_services },
      ToggleResponse.debugSet disabled_services)

/-- Admin route `enable_service` (routes.rs lines 109-117): if the
service name is in `disabled_services`, remove it and answer with the
set's debug rendering; otherwise answer with the
could-not-find-disabled-service error message, leaving the store
untouched. -/
def enable_service (store : Store) (service_name : String) : Store × ToggleResponse :=
  if service_name ∈ store.disabledServices then
    let disabled_services := store.disabledServices.erase service_name
    ({ store with disabledServices := disabled_services },
      ToggleResponse.debugSet disabled_services)
  else
    (store, ToggleResponse.couldNotFindDisabled service_name)

/-- Reporter route `reporter_report` (routes.rs lines 120-156). If the
payload has a load variant, route to `handle_load`: on success trigger
`run_dispatch_plugins` with the forward value and answer 200; errors
map `InvalidLoad` to 400, `WrongMode` to 412, `NotFound` to 404.
Otherwise, if it has a health variant, route to `handle_health`: 200 on
success, 412 for `WrongMode`, 404 for `NotFound` (no plugin dispatch).
With neither variant present the report contents are invalid: 400. -/
def reporter_report (store : Store) (probe_id node_id : String) (data : ReporterPayload) :
    ReportResult :=
  match data.load with
  | some load =>
    let result := handle_load store probe_id node_id data.replica data.interval load.cpu load.ram
    match result.2 with
    | Except.ok forward =>
      { store := result.1, response := Response.Ok,
        dispatches := [{ probe_id := probe_id, node_id := node_id, forward := forward }] }
    | Except.error HandleLoadError.InvalidLoad =>
      { store := result.1, response := Response.BadRequest, dispatches := [] }
    | Except.error HandleLoadError.WrongMode =>
      { store := result.1, response := Response.PreconditionFailed, dispatches := [] }
    | Except.error HandleLoadError.NotFound =>
      { store := result.1, response := Response.NotFound, dispatches := [] }
  | none =>
    match data.health with
    | some health =>
      let result := handle_health store probe_id node_id data.replica data.interval health
      match result.2 with
      | Except.ok _ =>
        { store := result.1, response := Response.Ok, dispatches := [] }
      | Except.error HandleHealthError.WrongMode =>
        { store := result.1, response := Response.PreconditionFailed, dispatches := [] }
      | Except.error HandleHealthError.NotFound =>
        { store := result.1, response := Response.NotFound, dispatches := [] }
    | none =>
      { store := store, response := Response.BadRequest, dispatches := [] }

/-- The response mapping of `reporter_report`'s load branch, as a total
function of the handler result (match arms of routes.rs lines 135-143):
success gives 200, `InvalidLoad` 400, `WrongMode` 412, `NotFound` 404. -/
def loadResponse : Except HandleLoadError Forward → Response
  | Except.ok _ => Response.Ok
  | Except.error HandleLoadError.InvalidLoad => Response.BadRequest
  | Except.error HandleLoadError.WrongMode => Response.PreconditionFailed
  | Except.error HandleLoadError.NotFound => Response.NotFound

/-- The response mapping of `reporter_report`'s health branch (match
arms of routes.rs lines 148-150): success gives 200, `WrongMode` 412,
`NotFound` 404. -/
def healthResponse : Except HandleHealthError Unit → Response
  | Except.ok _ => Response.Ok
  | Except.error HandleHealthError.WrongMode => Response.PreconditionFailed
  | Except.error HandleHealthError.NotFound => Response.NotFound

/-- The response mapping of `reporter_flush` (match arms of routes.rs
lines 164-166): success gives 200, `WrongMode` 412, `NotFound` 404. -/
def flushResponse : Except HandleFlushError Unit → Response
  | Except.ok _ => Response.Ok
  | Except.error HandleFlushError.WrongMode => Response.PreconditionFailed
  | Except.error HandleFlushError.NotFound => Response.NotFound

/-- Reporter route `reporter_flush` (routes.rs lines 159-168): route
the triple to `handle_flush` and map its outcome to the response. -/
def reporter_flush (store : Store) (probe_id node_id replica_id : String) : Store × Response :=
  let result := handle_flush store probe_id node_id replica_id
  match result.2 with
  | Except.ok _ => (result.1, Response.Ok)
  | Except.error HandleFlushError.WrongMode => (result.1, Response.PreconditionFailed)
  | Except.error HandleFlushError.NotFound => (result.1, Response.NotFound)

/-! Concrete fixtures used by witnesses and counterexamples. -/

/-- A probe with one push node and one local node. -/
def probeApi : Probe := ⟨[⟨"worker-1", Mode.Push⟩, ⟨"worker-2", Mode.Local⟩]⟩

/-- A store with the probe "api" registered and nothing disabled. -/
def store0 : Store := ⟨⟨[("api", probeApi)], []⟩, ∅⟩

/-- A store with the probe "api" registered and already disabled. -/
def storeDisabled : Store := ⟨⟨[("api", probeApi)], []⟩, {"api"}⟩

/-- A store with no probes registered and nothing disabled. -/
def storeEmptyRegistry : Store := ⟨⟨[], []⟩, ∅⟩

/-- An in-range load body. -/
def loadGood : LoadBody := ⟨0, 1⟩

/-- A health body. -/
def healthGood : HealthBody := ⟨"healthy"⟩

/-- A payload with only the load variant present. -/
def payloadLoad : ReporterPayload := ⟨"r1", 10, some loadGood, none⟩

/-- A payload with only the health variant present. -/
def payloadHealth : ReporterPayload := ⟨"r1", 10, none, some healthGood⟩

/-- A payload with both variants present. -/
def payloadBoth : ReporterPayload := ⟨"r1", 10, some loadGood, some healthGood⟩

/-- A payload with neither variant present. -/
def payloadEmpty : ReporterPayload := ⟨"r1", 10, none, none⟩

/-- The store after an accepted load report from replica r1 of
api/worker-1 on `store0`. -/
def store0AfterLoad : Store :=
  ⟨⟨[("api", probeApi)],
    [(("api", "worker-1", "r1"),
      { interval := 10, load := some (0, 1), health := none, generation := 0 })]⟩, ∅⟩

/-! Helper lemmas shared across the claim theorems. -/

/-- The accumulator form of the `found_it` loop reduces to a Boolean
disjunction with `List.any`. -/
theorem foundProbe_foldl (probes : List (String × Probe)) (name : String) (acc : Bool) :
    probes.foldl (fun found_it kv => if kv.1 == name then true else found_it) acc
      = (acc || probes.any (fun kv => kv.1 == name)) := by
  induction probes generalizing acc with
  | nil => simp
  | cons hd tl ih =>
    simp only [List.foldl_cons, List.any_cons]
    rw [ih]
    cases h : hd.1 == name <;> simp [h, Bool.or_comm, Bool.or_assoc, Bool.or_left_comm]

/-- The `found_it` flag of `disable_service` is set exactly when the
service name is a key of the registered probes. -/
theorem foundProbe_iff (probes : List (String × Probe)) (name : String) :
    foundProbe probes name = true ↔ ∃ probe, (name, probe) ∈ probes := by
  rw [foundProbe, foundProbe_foldl]
  simp only [Bool.false_or, List.any_eq_true, beq_iff_eq]
  constructor
  · rintro ⟨⟨k, probe⟩, hmem, heq⟩
    simp only at heq
    subst heq
    exact ⟨probe, hmem⟩
  · rintro ⟨probe, hmem⟩
    exact ⟨(name, probe), hmem, rfl⟩

/-! Claim theorems. -/

/-- C1 (counterexample): the claim that a report for an unregistered
probe or node always yields NotFound, for any payload shape, fails on a
payload with neither variant present: probe "ghost" is not registered
in `storeEmptyRegistry`, yet the response is BadRequest, not NotFound. -/
theorem reporter_report_unregistered_empty_payload_not_notFound :
    findNode storeEmptyRegistry.states "ghost" "n1" = none ∧
    payloadEmpty.load = none ∧ payloadEmpty.health = none ∧
    (reporter_report storeEmptyRegistry "ghost" "n1" payloadEmpty).response = Response.BadRequest ∧
    (reporter_report storeEmptyRegistry "ghost" "n1" payloadEmpty).response ≠ Response.NotFound := by
  refine ⟨rfl, rfl, rfl, rfl, ?_⟩
  decide

/-- C1 (amended): a report submission targeting a probe id or node id
that is not registered yields NotFound whenever the payload has at
least one of the two variants present; a payload with neither variant
yields BadRequest regardless of registration. -/
theorem reporter_report_unregistered_notFound (store : Store) (probe_id node_id : String)
    (data : ReporterPayload) (hfind : findNode store.states probe_id node_id = none)
    (hvar : data.load.isSome ∨ data.health.isSome) :
    (reporter_report store probe_id node_id data).response = Response.NotFound := by
  cases hl : data.load with
  | some l => simp [reporter_report, hl, handle_load, hfind]
  | none =>
    cases hh : data.health with
    | some h => simp [reporter_report, hl, hh, handle_health, hfind]
    | none => simp [hl, hh] at hvar

/-- C1 (witness): the amended theorem applied to a load-only payload
targeting the unregistered probe "ghost". -/
theorem reporter_report_unregistered_notFound_witness :
    (reporter_report storeEmptyRegistry "ghost" "n1" payloadLoad).response = Response.NotFound :=
  reporter_report_unregistered_notFound storeEmptyRegistry "ghost" "n1" payloadLoad
    (by decide) (by decide)

/-- C2 (counterexample): the claim that a payload with both variants
present is rejected as malformed fails: with both variants present and
a registered push node the load branch runs and the report is accepted
with 200, so `handle_load_report` is invoked rather than neither
handler. -/
theorem reporter_report_both_variants_not_rejected :
    payloadBoth.load.isSome = true ∧ payloadBoth.health.isSome = true ∧
    (reporter_report store0 "api" "worker-1" payloadBoth).response = Response.Ok ∧
    (reporter_report store0 "api" "worker-1" payloadBoth).response ≠ Response.BadRequest := by
  refine ⟨rfl, rfl, ?_, ?_⟩ <;> decide

/-- C2 (amended): a payload with neither variant present is rejected as
malformed with BadRequest, no handler effect on the store and no plugin
dispatch; a payload with both variants present is handled exactly as if
only its load variant were present (the load variant takes precedence
and the health variant is ignored). -/
theorem reporter_report_malformed_amended :
    (∀ (store : Store) (probe_id node_id : String) (data : ReporterPayload),
      data.load = none → data.health = none →
      reporter_report store probe_id node_id data =
        { store := store, response := Response.BadRequest, dispatches := [] }) ∧
    (∀ (store : Store) (probe_id node_id : String) (data : ReporterPayload) (l : LoadBody),
      data.load = some l →
      reporter_report store probe_id node_id data =
        reporter_report store probe_id node_id
          { replica := data.replica, interval := data.interval,
            load := data.load, health := none }) := by
  constructor
  · intro store probe_id node_id data hl hh
    simp [reporter_report, hl, hh]
  · intro store probe_id node_id data l hl
    simp [reporter_report, hl]

/-- C2 (witness): the amended theorem applied to the empty payload and
to the both-variant payload on `store0`. -/
theorem reporter_report_malformed_amended_witness :
    (reporter_report store0 "api" "worker-1" payloadEmpty =
      { store := store0, response := Response.BadRequest, dispatches := [] }) ∧
    (reporter_report store0 "api" "worker-1" payloadBoth =
      reporter_report store0 "api" "worker-1"
        { replica := payloadBoth.replica, interval := payloadBoth.interval,
          load := payloadBoth.load, health := none }) :=
  ⟨reporter_report_malformed_amended.1 store0 "api" "worker-1" payloadEmpty rfl rfl,
    reporter_report_malformed_amended.2 store0 "api" "worker-1" payloadBoth loadGood rfl⟩

/-- C3: the response of `reporter_report` is exactly one of 200, 400,
412, 404 and the outcome kind is uniquely recoverable from it: the
status codes are pairwise distinct, the load branch's response is
`loadResponse` of the `handle_load` result (success to 200,
`InvalidLoad` to 400, `WrongMode` to 412, `NotFound` to 404), the
health branch's response is `healthResponse` of the `handle_health`
result (success to 200, `WrongMode` to 412, `NotFound` to 404), and a
payload with neither variant gets 400. -/
theorem reporter_report_outcome_mapping :
    (Response.Ok.code = 200 ∧ Response.BadRequest.code = 400 ∧
      Response.PreconditionFailed.code = 412 ∧ Response.NotFound.code = 404 ∧
      (∀ r s : Response, r.code = s.code → r = s) ∧
      (∀ f, loadResponse (Except.ok f) = Response.Ok) ∧
      loadResponse (Except.error HandleLoadError.InvalidLoad) = Response.BadRequest ∧
      loadResponse (Except.error HandleLoadError.WrongMode) = Response.PreconditionFailed ∧
      loadResponse (Except.error HandleLoadError.NotFound) = Response.NotFound ∧
      healthResponse (Except.ok ()) = Response.Ok ∧
      healthResponse (Except.error HandleHealthError.WrongMode) = Response.PreconditionFailed ∧
      healthResponse (Except.error HandleHealthError.NotFound) = Response.NotFound) ∧
    (∀ (store : Store) (probe_id node_id : String) (data : ReporterPayload) (l : LoadBody),
      data.load = some l →
      (reporter_report store probe_id node_id data).response =
        loadResponse
          (handle_load store probe_id node_id data.replica data.interval l.cpu l.ram).2) ∧
    (∀ (store : Store) (probe_id node_id : String) (data : ReporterPayload) (h : HealthBody),
      data.load = none → data.health = some h →
      (reporter_report store probe_id node_id data).response =
        healthResponse
          (handle_health store probe_id node_id data.replica data.interval h).2) ∧
    (∀ (store : Store) (probe_id node_id : String) (data : ReporterPayload),
      data.load = none → data.health = none →
      (reporter_report store probe_id node_id data).response = Response.BadRequest) := by
  refine ⟨⟨rfl, rfl, rfl, rfl, ?_, fun f => rfl, rfl, rfl, rfl, rfl, rfl, rfl⟩, ?_, ?_, ?_⟩
  · intro r s h
    cases r <;> cases s <;> simp_all [Response.code]
  · intro store probe_id node_id data l hl
    simp only [reporter_report, hl]
    cases h2 : (handle_load store probe_id node_id data.replica data.interval l.cpu l.ram).2 with
    | ok f => simp [h2, loadResponse]
    | error e => cases e <;> simp [h2, loadResponse]
  · intro store probe_id node_id data h hl hh
    simp only [reporter_report, hl, hh]
    cases h2 : (handle_health store probe_id node_id data.replica data.interval h).2 with
    | ok u => simp [h2, healthResponse]
    | error e => cases e <;> simp [h2, healthResponse]
  · intro store probe_id node_id data hl hh
    simp [reporter_report, hl, hh]

/-- C3 (witness): the outcome mapping applied to concrete load-only,
health-only and empty payloads on `store0`, discharging each
hypothesis. -/
theorem reporter_report_outcome_mapping_witness :
    ((reporter_report store0 "api" "worker-1" payloadLoad).response =
      loadResponse
        (handle_load store0 "api" "worker-1" payloadLoad.replica payloadLoad.interval
          loadGood.cpu loadGood.ram).2) ∧
    ((reporter_report store0 "api" "worker-2" payloadHealth).response =
      healthResponse
        (handle_health store0 "api" "worker-2" payloadHealth.replica payloadHealth.interval
          healthGood).2) ∧
    ((reporter_report store0 "api" "worker-1" payloadEmpty).response = Response.BadRequest) :=
  ⟨reporter_report_outcome_mapping.2.1 store0 "api" "worker-1" payloadLoad loadGood rfl,
    reporter_report_outcome_mapping.2.2.1 store0 "api" "worker-2" payloadHealth healthGood rfl rfl,
    reporter_report_outcome_mapping.2.2.2 store0 "api" "worker-1" payloadEmpty rfl rfl⟩

/-- C4: plugin dispatch discipline of `reporter_report`. When the load
variant is present and `handle_load` succeeds, `run_dispatch_plugins`
is called exactly once, with the probe id, node id and the forward
value returned by `handle_load`, and the returned store is the mutated
store handed back by `handle_load` (the mutation is committed in the
same result the dispatch is recorded in). When `handle_load` fails
there is no dispatch, and on the health path (no load variant) there is
never a dispatch. -/
theorem run_dispatch_plugins_exactly_once (store : Store) (probe_id node_id : String)
    (data : ReporterPayload) :
    (∀ (l : LoadBody) (s : Store) (f : Forward), data.load = some l →
      handle_load store probe_id node_id data.replica data.interval l.cpu l.ram =
        (s, Except.ok f) →
      reporter_report store probe_id node_id data =
        { store := s, response := Response.Ok,
          dispatches := [{ probe_id := probe_id, node_id := node_id, forward := f }] }) ∧
    (∀ (l : LoadBody) (e : HandleLoadError), data.load = some l →
      (handle_load store probe_id node_id data.replica data.interval l.cpu l.ram).2 =
        Except.error e →
      (reporter_report store probe_id node_id data).dispatches = []) ∧
    (data.load = none → (reporter_report store probe_id node_id data).dispatches = []) := by
  refine ⟨?_, ?_, ?_⟩
  · intro l s f hl hres
    simp [reporter_report, hl, hres]
  · intro l e hl hres
    cases e <;> simp [reporter_report, hl, hres]
  · intro hl
    cases hh : data.health with
    | some h =>
      simp only [reporter_report, hl, hh]
      cases h2 : (handle_health store probe_id node_id data.replica data.interval h).2 with
      | ok u => simp [h2]
      | error e => cases e <;> simp [h2]
    | none => simp [reporter_report, hl, hh]

/-- C4 (witness): on `store0`, an accepted load report from
api/worker-1 dispatches exactly once with the forward value (0, 1) and
the committed store `store0AfterLoad`; a load report to the local node
worker-2 fails with `WrongMode` and dispatches nothing; a health-only
payload dispatches nothing. -/
theorem run_dispatch_plugins_exactly_once_witness :
    (reporter_report store0 "api" "worker-1" payloadLoad =
      { store := store0AfterLoad, response := Response.Ok,
        dispatches := [⟨"api", "worker-1", ⟨0, 1⟩⟩] }) ∧
    ((reporter_report store0 "api" "worker-2" payloadLoad).dispatches = []) ∧
    ((reporter_report store0 "api" "worker-2" payloadHealth).dispatches = []) :=
  ⟨(run_dispatch_plugins_exactly_once store0 "api" "worker-1" payloadLoad).1 loadGood
      store0AfterLoad ⟨0, 1⟩ rfl rfl,
    (run_dispatch_plugins_exactly_once store0 "api" "worker-2" payloadLoad).2.1 loadGood
      HandleLoadError.WrongMode rfl rfl,
    (run_dispatch_plugins_exactly_once store0 "api" "worker-2" payloadHealth).2.2 rfl⟩

/-- C5 (counterexample): the claim that `disable_service(p)` followed
by `enable_service(p)` restores the disabled set fails when p is
already disabled: on `storeDisabled` (probe "api" registered and
already in the disabled set) the round trip removes "api", leaving a
set different from the pre-disable one. -/
theorem disable_enable_not_roundtrip :
    foundProbe storeDisabled.states.probes "api" = true ∧
    storeDisabled.disabledServices = {"api"} ∧
    (enable_service (disable_service storeDisabled "api").1 "api").1.disabledServices ≠
      storeDisabled.disabledServices := by
  refine ⟨rfl, rfl, ?_⟩
  decide

/-- C5 (amended): for a probe id p registered in the store's probes and
NOT already in the disabled set, `disable_service(p)` followed by
`enable_service(p)` restores the disabled set to exactly its membership
before the disable call. -/
theorem disable_enable_roundtrip (store : Store) (p : String)
    (hreg : foundProbe store.states.probes p = true)
    (hnot : p ∉ store.disabledServices) :
    (enable_service (disable_service store p).1 p).1.disabledServices =
      store.disabledServices := by
  simp only [disable_service, hreg, Bool.true_eq_false, if_false, enable_service,
    Finset.mem_insert_self, if_true]
  exact Finset.erase_insert hnot

/-- C5 (witness): the amended round trip on `store0`, where "api" is
registered and not disabled. -/
theorem disable_enable_roundtrip_witness :
    (enable_service (disable_service store0 "api").1 "api").1.disabledServices =
      store0.disabledServices :=
  disable_enable_roundtrip store0 "api" rfl (by decide)

/-- C6: behaviour of `enable_service`. For a service name not currently
in the disabled set it returns the could-not-find-disabled-service
error and leaves the whole store unchanged; for a name currently in the
set it removes exactly that name (the new set is the erase of the old)
and returns the debug rendering of the new set, with the rest of the
store unchanged. -/
theorem enable_service_spec (store : Store) (p : String) :
    (p ∉ store.disabledServices →
      enable_service store p = (store, ToggleResponse.couldNotFindDisabled p)) ∧
    (p ∈ store.disabledServices →
      (enable_service store p).1.disabledServices = store.disabledServices.erase p ∧
      (enable_service store p).1.states = store.states ∧
      (enable_service store p).2 =
        ToggleResponse.debugSet (store.disabledServices.erase p)) := by
  constructor
  · intro h
    simp [enable_service, h]
  · intro h
    simp [enable_service, h]

/-- C6 (witness): `enable_service` applied to the not-disabled name
"api" on `store0` and to the disabled name "api" on `storeDisabled`. -/
theorem enable_service_spec_witness :
    (enable_service store0 "api" = (store0, ToggleResponse.couldNotFindDisabled "api")) ∧
    ((enable_service storeDisabled "api").1.disabledServices =
        storeDisabled.disabledServices.erase "api" ∧
      (enable_service storeDisabled "api").1.states = storeDisabled.states ∧
      (enable_service storeDisabled "api").2 =
        ToggleResponse.debugSet (storeDisabled.disabledServices.erase "api")) :=
  ⟨(enable_service_spec store0 "api").1 (by decide),
    (enable_service_spec storeDisabled "api").2 (by decide)⟩

/-- C7: behaviour of `disable_service`. For a service name registered
among the store's probes it inserts the name into the disabled set
(leaving the states untouched) and is idempotent: a second call leaves
the disabled set equal to its value after the first. For an
unregistered name it returns the could-not-find-service error and
leaves the whole store unchanged. -/
theorem disable_service_spec (store : Store) (p : String) :
    (foundProbe store.states.probes p = true →
      (disable_service store p).1.disabledServices = insert p store.disabledServices ∧
      (disable_service store p).1.states = store.states ∧
      (disable_service store p).2 =
        ToggleResponse.debugSet (insert p store.disabledServices) ∧
      (disable_service (disable_service store p).1 p).1.disabledServices =
        (disable_service store p).1.disabledServices) ∧
    (foundProbe store.states.probes p = false →
      disable_service store p = (store, ToggleResponse.couldNotFind p)) := by
  constructor
  · intro h
    refine ⟨by simp [disable_service, h], by simp [disable_service, h], ?_, ?_⟩
    · simp [disable_service, h]
    · simp [disable_service, h, Finset.insert_idem]
  · intro h
    simp [disable_service, h]

/-- C7 (witness): `disable_service` applied to the registered name
"api" and the unregistered name "ghost" on `store0`. -/
theorem disable_service_spec_witness :
    ((disable_service store0 "api").1.disabledServices =
        insert "api" store0.disabledServices ∧
      (disable_service store0 "api").1.states = store0.states ∧
      (disable_service store0 "api").2 =
        ToggleResponse.debugSet (insert "api" store0.disabledServices) ∧
      (disable_service (disable_service store0 "api").1 "api").1.disabledServices =
        (disable_service store0 "api").1.disabledServices) ∧
    (disable_service store0 "ghost" = (store0, ToggleResponse.couldNotFind "ghost")) :=
  ⟨(disable_service_spec store0 "api").1 rfl,
    (disable_service_spec store0 "ghost").2 rfl⟩

/-- C8: `reporter_flush` maps the `handle_flush` outcome through
`flushResponse` (success to 200, `WrongMode` to 412, `NotFound` to
404), and `handle_flush` never produces `WrongMode` (flush has no mode
restriction), so the route's response is always 200 or 404. -/
theorem reporter_flush_spec :
    (flushResponse (Except.ok ()) = Response.Ok ∧
      flushResponse (Except.error HandleFlushError.WrongMode) = Response.PreconditionFailed ∧
      flushResponse (Except.error HandleFlushError.NotFound) = Response.NotFound) ∧
    (∀ (store : Store) (probe_id node_id replica_id : String),
      (reporter_flush store probe_id node_id replica_id).2 =
        flushResponse (handle_flush store probe_id node_id replica_id).2) ∧
    (∀ (store : Store) (probe_id node_id replica_id : String),
      (handle_flush store probe_id node_id replica_id).2 ≠
        Except.error HandleFlushError.WrongMode) ∧
    (∀ (store : Store) (probe_id node_id replica_id : String),
      (reporter_flush store probe_id node_id replica_id).2 = Response.Ok ∨
      (reporter_flush store probe_id node_id replica_id).2 = Response.NotFound) := by
  have hflush : ∀ (store : Store) (probe_id node_id replica_id : String),
      (handle_flush store probe_id node_id replica_id).2 = Except.ok () ∨
      (handle_flush store probe_id node_id replica_id).2 =
        Except.error HandleFlushError.NotFound := by
    intro store probe_id node_id replica_id
    cases hn : findNode store.states probe_id node_id with
    | none => exact Or.inr (by simp [handle_flush, hn])
    | some nd =>
      cases hr : getReplica store.states (probe_id, node_id, replica_id) with
      | none => exact Or.inr (by simp [handle_flush, hn, hr])
      | some rs => exact Or.inl (by simp [handle_flush, hn, hr])
  have hlink : ∀ (store : Store) (probe_id node_id replica_id : String),
      (reporter_flush store probe_id node_id replica_id).2 =
        flushResponse (handle_flush store probe_id node_id replica_id).2 := by
    intro store probe_id node_id replica_id
    rw [reporter_flush]
    cases h2 : (handle_flush store probe_id node_id replica_id).2 with
    | ok u => simp [h2, flushResponse]
    | error e => cases e <;> simp [h2, flushResponse]
  refine ⟨⟨rfl, rfl, rfl⟩, hlink, ?_, ?_⟩
  · intro store probe_id node_id replica_id h
    rcases hflush store probe_id node_id replica_id with h2 | h2 <;> rw [h2] at h <;>
      exact absurd h (by simp)
  · intro store probe_id node_id replica_id
    rcases hflush store probe_id node_id replica_id with h2 | h2 <;>
      rw [hlink store probe_id node_id replica_id, h2] <;> simp [flushResponse]

/-- C10: `enable_service` never consults the probe registry: its
response and resulting disabled set depend only on the disabled set of
the input store; in particular, for a name registered among the probes
but not currently disabled it still returns the
could-not-find-disabled-service error, whereas `disable_service`
validates the name against the registered probes and refuses
unregistered names without mutating. -/
theorem enable_service_ignores_registry :
    (∀ (s1 s2 : Store) (p : String), s1.disabledServices = s2.disabledServices →
      (enable_service s1 p).2 = (enable_service s2 p).2 ∧
      (enable_service s1 p).1.disabledServices = (enable_service s2 p).1.disabledServices) ∧
    (∀ (s : Store) (p : String),
      foundProbe s.states.probes p = true → p ∉ s.disabledServices →
      (enable_service s p).2 = ToggleResponse.couldNotFindDisabled p) ∧
    (∀ (s : Store) (p : String), foundProbe s.states.probes p = false →
      disable_service s p = (s, ToggleResponse.couldNotFind p)) := by
  refine ⟨?_, ?_, ?_⟩
  · intro s1 s2 p h
    by_cases hm : p ∈ s2.disabledServices <;> simp [enable_service, h, hm]
  · intro s p hreg hnot
    simp [enable_service, hnot]
  · intro s p h
    simp [disable_service, h]

/-- C10 (witness): two stores with equal disabled sets but different
registries give equal enable outcomes; on `store0` the registered but
not-disabled name "api" still gets the could-not-find-disabled error;
and disabling the unregistered "ghost" is refused without mutation. -/
theorem enable_service_ignores_registry_witness :
    ((enable_service store0 "api").2 = (enable_service storeEmptyRegistry "api").2 ∧
      (enable_service store0 "api").1.disabledServices =
        (enable_service storeEmptyRegistry "api").1.disabledServices) ∧
    ((enable_service store0 "api").2 = ToggleResponse.couldNotFindDisabled "api") ∧
    (disable_service store0 "ghost" = (store0, ToggleResponse.couldNotFind "ghost")) :=
  ⟨enable_service_ignores_registry.1 store0 storeEmptyRegistry "api" rfl,
    enable_service_ignores_registry.2.1 store0 "api" rfl (by decide),
    enable_service_ignores_registry.2.2 store0 "ghost" rfl⟩

end Vigil
